import Mathlib

/-!
Verification of the MCP tool-provider lifecycle and execution layer of
`backend/mcp_manager.py`: the Result Normalizer (`_process_mcp_result`),
the argument Sanitizer (`_sanitize_arguments_for_logging`), the Tool
Executor (`execute_mcp_tool`), the capability adapter (`MCPToolWrapper`),
the Tool Aggregator (`MCPServerManager.get_all_tools`) and the Server
Lifecycle Manager (`MCPServerManager.initialize_servers`).

The Python runtime is shallowly embedded: Python values are the inductive
`PyVal`, exceptions are `PyExc`, and i/o effects (the provider call raced
against the timeout, provider startup) are oracles passed as explicit
arguments.  Wall-clock readings (`time.time()`) are likewise an oracle:
`elapsed_ms` stands for `(time.time() - start_time) * 1000` at the moment
the outcome is built.
-/

namespace MCPManager

/-- Model of a Python runtime value as the duck-typing probes of
`mcp_manager.py` observe it (`hasattr`, `isinstance(..., str/list/dict)`,
`in` on a dict, subscripting, `str(...)`).  Objects carry their class name
and an attribute table; `hasattr` is true only for objects, matching
CPython on the types this module handles (a `dict`'s keys are not
attributes, plain strings/lists/ints expose none of the probed names). -/
inductive PyVal : Type where
  | none : PyVal
  | bool : Bool → PyVal
  | int : Int → PyVal
  | str : String → PyVal
  | list : List PyVal → PyVal
  | dict : List (String × PyVal) → PyVal
  | obj : String → List (String × PyVal) → PyVal

/-- `hasattr(v, name)`: only objects expose attributes among the shapes probed. -/
def PyVal.hasattr : PyVal → String → Bool
  | .obj _ attrs, attr => attrs.any (fun p => p.1 == attr)
  | _, _ => false

/-- `getattr(v, name)`, defaulting to `None` when absent (only evaluated
under a `hasattr` guard in the embedded code, mirroring the source). -/
def PyVal.getattrD : PyVal → String → PyVal
  | .obj _ attrs, attr => ((attrs.find? (fun p => p.1 == attr)).map Prod.snd).getD .none
  | _, _ => .none

/-- `k in d` / `d[k]` for a Python dict (keys are unique in a dict;
`find?` returns the binding). -/
def pyDictGet? (entries : List (String × PyVal)) (key : String) : Option PyVal :=
  (entries.find? (fun p => p.1 == key)).map Prod.snd

mutual
/-- Model of Python `repr`.  Only its behaviour on `None`, booleans, ints
and strings is relied on by any theorem below; containers and objects get
a deterministic stand-in for CPython's rendering. -/
def pyRepr : PyVal → String
  | .none => "None"
  | .bool b => if b then "True" else "False"
  | .int n => toString n
  | .str s => "'" ++ s ++ "'"
  | .list xs => "[" ++ pyReprList xs ++ "]"
  | .dict es => "\x7b" ++ pyReprDict es ++ "\x7d"
  | .obj cls _ => "<" ++ cls ++ " object>"

/-- Comma-joined `repr`s of a list's items. -/
def pyReprList : List PyVal → String
  | [] => ""
  | [x] => pyRepr x
  | x :: xs => pyRepr x ++ ", " ++ pyReprList xs

/-- Comma-joined `'key': repr(value)` renderings of a dict's entries. -/
def pyReprDict : List (String × PyVal) → String
  | [] => ""
  | [(k, v)] => "'" ++ k ++ "': " ++ pyRepr v
  | (k, v) :: es => "'" ++ k ++ "': " ++ pyRepr v ++ ", " ++ pyReprDict es
end

/-- Model of Python `str(...)`: the identity on strings, `repr`-like
otherwise (exact for `None`, booleans and ints). -/
def pyStrOf : PyVal → String
  | .str s => s
  | v => pyRepr v

/-- One content element of `_process_mcp_result`'s list branch
(mcp_manager.py lines 360–368): the element's `text` attribute if it has
one, else the element itself when it is a string, else its `'text'` entry
when it is a dict holding one, else `str(element)`. -/
def contentBlockPart (content_block : PyVal) : PyVal :=
  if content_block.hasattr "text" then content_block.getattrD "text"
  else
    match content_block with
    | .str s => .str s
    | .dict es =>
      match pyDictGet? es "text" with
      | some v => v
      | Option.none => .str (pyStrOf content_block)
    | _ => .str (pyStrOf content_block)

/-- The strings of a list of values, or `none` as soon as one value is not
a string — models `"\n".join(parts)` raising `TypeError` on a non-string
item. -/
def allStrs : List PyVal → Option (List String)
  | [] => some []
  | .str s :: rest => (allStrs rest).map (s :: ·)
  | _ :: _ => Option.none

/-- Transcription of `_process_mcp_result` (mcp_manager.py lines 336–397).
It returns the Python value the source returns — the source only
*annotates* `-> str` and returns `result['text']` and `content.text`
unwrapped, so a non-string can come back.  `.error` models the `TypeError`
that `"\n".join` raises when a content element's text is not a string. -/
def process_mcp_result (result : PyVal) : Except String PyVal :=
  match result with
  | .none => .ok (.str "")
  | r =>
    if r.hasattr "content" then
      let content := r.getattrD "content"
      match content with
      | .list blocks =>
        match allStrs (blocks.map contentBlockPart) with
        | some parts => .ok (.str (String.intercalate "\n" parts))
        | Option.none => .error "sequence item: expected str instance"
      | c =>
        if c.hasattr "text" then .ok (c.getattrD "text")
        else
          match c with
          | .str s => .ok (.str s)
          | .dict es =>
            match pyDictGet? es "text" with
            | some v => .ok v
            | Option.none => .ok (.str (pyStrOf c))
          | _ => .ok (.str (pyStrOf c))
    else
      match r with
      | .str s => .ok (.str s)
      | .dict es =>
        match pyDictGet? es "text" with
        | some v => .ok v
        | Option.none =>
          match pyDictGet? es "result" with
          | some v => .ok (.str (pyStrOf v))
          | Option.none =>
            match pyDictGet? es "data" with
            | some v => .ok (.str (pyStrOf v))
            | Option.none => .ok (.str (pyStrOf r))
      | _ => .ok (.str (pyStrOf r))

/-- `_sanitize_arguments_for_logging`'s sensitive-key name fragments
(mcp_manager.py line 414). -/
def sensitive_keys : List String := ["api_key", "apikey", "password", "secret", "token", "credential"]

/-- `needle` occurs at the head of `hay`. -/
def leadMatch : List Char → List Char → Bool
  | [], _ => true
  | _ :: _, [] => false
  | a :: as, b :: bs => a == b && leadMatch as bs

/-- `needle` occurs contiguously somewhere in `hay`. -/
def occursIn (needle hay : List Char) : Bool :=
  leadMatch needle hay ||
    match hay with
    | [] => false
    | _ :: t => occursIn needle t

/-- Python `needle in haystack` on strings: contiguous substring test. -/
def strContains (haystack needle : String) : Bool :=
  occursIn needle.data haystack.data

/-- Model of Python `str.lower()`: per-character lowering (`Char.toLower`
lowers A–Z; the sensitive fragments compared against are pure ASCII). -/
def pyToLower (s : String) : String :=
  String.mk (s.data.map Char.toLower)

/-- `key_lower` matches a sensitive fragment — the condition of
mcp_manager.py line 419 applied to `key.lower()`. -/
def isSensitiveKey (key : String) : Bool :=
  sensitive_keys.any (fun sensitive => strContains (pyToLower key) sensitive)

/-- The loop body of `_sanitize_arguments_for_logging` (mcp_manager.py
lines 417–424) for one `key, value` pair: sensitive key → fixed marker;
else a string longer than 200 characters → first 100 characters plus a
character-count annotation; else unchanged. -/
def sanitizeEntry (kv : String × PyVal) : String × PyVal :=
  if isSensitiveKey kv.1 then (kv.1, .str "***REDACTED***")
  else
    match kv.2 with
    | .str s =>
      if 200 < s.length then
        (kv.1, .str (s.take 100 ++ "...(" ++ toString s.length ++ " chars)"))
      else kv
    | _ => kv

/-- Transcription of `_sanitize_arguments_for_logging` (mcp_manager.py
lines 400–426).  The source builds a fresh `sanitized` dict and never
writes into `arguments`, so the embedding is a pure function of the
argument list (insertion order preserved, as for a Python dict). -/
def sanitize_arguments_for_logging (arguments : List (String × PyVal)) :
    List (String × PyVal) :=
  arguments.map sanitizeEntry

/-- Transcription of `_format_error_details` (mcp_manager.py lines
429–457): a Python exception as observed there is its class name
(`type(e).__name__`) and its `str(e)` message. -/
def format_error_details (typeName message : String) : String :=
  if typeName = "ConnectionError" then "서버 연결에 실패했습니다. 네트워크 상태를 확인하세요."
  else if typeName = "TimeoutError" then "요청 시간이 초과되었습니다. 나중에 다시 시도하세요."
  else if typeName = "AuthenticationError" then "인증에 실패했습니다. 자격 증명을 확인하세요."
  else if typeName = "PermissionError" then "권한이 없습니다. 접근 권한을 확인하세요."
  else if typeName = "ValueError" then "잘못된 값이 전달되었습니다: " ++ message
  else if typeName = "TypeError" then "잘못된 타입이 전달되었습니다: " ++ message
  else typeName ++ ": " ++ message

/-- Model of `str(float)` for the timeout value embedded in messages
(exact for whole-valued floats such as the default `30.0`). -/
def floatRepr (q : ℚ) : String :=
  if q.den = 1 then toString q.num ++ ".0"
  else toString q.num ++ "/" ++ toString q.den

/-- An exception as the `except` clauses of `execute_mcp_tool` can observe
it.  The module's own classes (`MCPToolTimeoutError`,
`MCPToolConnectionError`) are matched by `isinstance` and are carried
structurally; everything the external MCP client library raises is foreign
to those classes — `isinstance` on them is always false, whatever the
class is *named* — so it is carried as its class name and message only. -/
inductive PyExc : Type where
  | mcpToolTimeoutError (tool_name server_name : String) (timeout_seconds : ℚ)
  | mcpToolConnectionError (tool_name server_name : String) (message : String)
  | foreign (typeName message : String)

/-- `str(e)` for the module's own exception classes
(`MCPToolError._format_message`, mcp_manager.py lines 67–72; none of the
raises modelled here attaches an `original_error`), and the bare message
for a foreign exception. -/
def pyExcStr : PyExc → String
  | .mcpToolTimeoutError tool server timeout =>
    "[" ++ server ++ "] 도구 '" ++ tool ++ "' 오류: 실행 시간 초과 (" ++ floatRepr timeout ++ "초)"
  | .mcpToolConnectionError tool server message =>
    "[" ++ server ++ "] 도구 '" ++ tool ++ "' 오류: " ++ message
  | .foreign _ message => message

/-- The behaviour of one `session.call_tool(tool_name, arguments)`
invocation under `asyncio.wait_for`: it completes within the budget with a
value, raises an exception of the external client library, or outlasts the
budget so that `asyncio.wait_for` raises `asyncio.TimeoutError`.  This is
the executor's oracle for the one i/o action it performs. -/
inductive CallBehavior : Type where
  | ok (value : PyVal)
  | raises (typeName message : String)
  | timesOut

/-- `MCPToolResultStatus` (mcp_manager.py lines 145–155). -/
inductive MCPToolResultStatus : Type where
  | success
  | error
  | timeout
  | connection_error
  | validation_error
deriving DecidableEq

/-- `MCPToolResult` (mcp_manager.py lines 158–182). -/
structure MCPToolResult : Type where
  tool_name : String
  server_name : String
  status : MCPToolResultStatus
  result : Option String := Option.none
  error_message : Option String := Option.none
  execution_time_ms : ℚ := 0
  arguments : List (String × PyVal) := []

/-- What the executor's instrumentation records: whether
`session.call_tool` was started, and whether `asyncio.wait_for` raced it
against the timeout (in the source the two happen together, at line 251). -/
structure ExecLog : Type where
  callInvoked : Bool
  waitedOnTimeout : Bool

/-- Transcription of `execute_mcp_tool` (mcp_manager.py lines 206–333).
The `try` body either returns the normalized result text or raises a
`PyExc`; the three `except` clauses below map the exception to an outcome.
On the success path the source's own logging evaluates
`len(result_text)` and `result_text[:500]`, so a non-string value coming
back from `_process_mcp_result` raises `TypeError` there and lands in the
generic handler.  `elapsed_ms` is the wall-clock oracle. -/
def execute_mcp_tool (session : Option CallBehavior) (tool_name server_name : String)
    (arguments : List (String × PyVal)) (timeout_seconds : ℚ) (elapsed_ms : ℚ) :
    MCPToolResult × ExecLog :=
  let body : Except PyExc String :=
    match session with
    | Option.none =>
      .error (.mcpToolConnectionError tool_name server_name
        "MCP 세션이 None입니다. 서버 연결을 확인하세요.")
    | some call =>
      match call with
      | .timesOut => .error (.mcpToolTimeoutError tool_name server_name timeout_seconds)
      | .raises typeName message => .error (.foreign typeName message)
      | .ok value =>
        match process_mcp_result value with
        | .error message => .error (.foreign "TypeError" message)
        | .ok result_value =>
          match result_value with
          | .str s => .ok s
          | _ => .error (.foreign "TypeError" "object of type 'int' has no len()")
  let log : ExecLog := ⟨session.isSome, session.isSome⟩
  match body with
  | .ok result_text =>
    (⟨tool_name, server_name, .success, some result_text, Option.none, elapsed_ms, arguments⟩, log)
  | .error (.mcpToolTimeoutError ..) =>
    (⟨tool_name, server_name, .timeout, Option.none,
      some ("도구 실행 시간 초과 (" ++ floatRepr timeout_seconds ++ "초)"), elapsed_ms, arguments⟩, log)
  | .error (e@(.mcpToolConnectionError ..)) =>
    (⟨tool_name, server_name, .connection_error, Option.none,
      some (pyExcStr e), elapsed_ms, arguments⟩, log)
  | .error (.foreign typeName message) =>
    (⟨tool_name, server_name, .error, Option.none,
      some (format_error_details typeName message), elapsed_ms, arguments⟩, log)

/-- Python `x or dflt` on an optional string: `dflt` when `x` is `None` or
empty (both falsy). -/
def pyOrStr (x : Option String) (dflt : String) : String :=
  match x with
  | some s => if s = "" then dflt else s
  | Option.none => dflt

/-- `f"{x}"` on an optional string: `None` renders as "None". -/
def optFieldStr : Option String → String
  | some s => s
  | Option.none => "None"

/-- `MCPToolWrapper` (mcp_manager.py lines 514–637): the capability
adapter.  `session` is the wrapped provider session's behaviour for the
one call an `_arun` performs. -/
structure MCPToolWrapper : Type where
  name : String
  description : String
  mcp_tool : List (String × PyVal)
  session : Option CallBehavior
  server_name : String
  timeout_seconds : ℚ := 30

/-- Transcription of `MCPToolWrapper._create_error_response`
(mcp_manager.py lines 603–637): the `status_messages` dict holds an entry
for every status but `SUCCESS`; `dict.get`'s fallback covers that one. -/
def create_error_response (w : MCPToolWrapper) (result : MCPToolResult) : String :=
  match result.status with
  | .timeout =>
    "도구 '" ++ w.name ++ "' 실행이 시간 초과되었습니다. 서버(" ++ w.server_name ++ ")가 응답하지 않습니다."
  | .connection_error =>
    "서버 '" ++ w.server_name ++ "'에 연결할 수 없습니다. 서버 상태를 확인해 주세요."
  | .validation_error =>
    "도구 '" ++ w.name ++ "'에 잘못된 인자가 전달되었습니다. 오류: " ++ optFieldStr result.error_message
  | .error =>
    "도구 '" ++ w.name ++ "' 실행 중 오류가 발생했습니다: " ++ optFieldStr result.error_message
  | .success =>
    "알 수 없는 오류가 발생했습니다: " ++ optFieldStr result.error_message

/-- Transcription of `MCPToolWrapper._arun` (mcp_manager.py lines
557–601): run the executor; on `SUCCESS` return `result.result or ""`; on
`CONNECTION_ERROR` re-raise as `MCPToolConnectionError`; on every other
failure return the user-facing message from `_create_error_response`. -/
def MCPToolWrapper.arun (w : MCPToolWrapper) (kwargs : List (String × PyVal))
    (elapsed_ms : ℚ) : Except PyExc String :=
  let result :=
    (execute_mcp_tool w.session w.name w.server_name kwargs w.timeout_seconds elapsed_ms).1
  if result.status = .success then .ok (pyOrStr result.result "")
  else
    let error_message := create_error_response w result
    if result.status = .connection_error then
      .error (.mcpToolConnectionError w.name w.server_name (pyOrStr result.error_message "연결 오류"))
    else .ok error_message

/-- `GrafanaConfig` (config.py lines 129–141): connection descriptor for
the Grafana provider. -/
structure GrafanaConfig : Type where
  url : String
  api_key : String

/-- `CloudWatchConfig` (config.py lines 207–219): connection descriptor
for the CloudWatch provider. -/
structure CloudWatchConfig : Type where
  aws_access_key_id : String
  aws_secret_access_key : String
  region : String

/-- `MCPServerInfo` (mcp_manager.py lines 185–199).  `session` carries the
behaviour the live session would exhibit on a tool call. -/
structure MCPServerInfo : Type where
  name : String
  session : Option CallBehavior := Option.none
  tools : List PyVal := []
  is_connected : Bool := false

/-- The body of `get_all_tools`'s inner loop (mcp_manager.py lines
866–884): extract name/description/schema from one discovered tool by
attribute probing and build the `MCPToolWrapper`.  `f"{server_name}_{tool_name}"`
stringifies the raw attribute value, hence `pyStrOf`. -/
def wrap_mcp_tool (server_name : String) (session : CallBehavior) (timeout_seconds : ℚ)
    (mcp_tool : PyVal) : MCPToolWrapper :=
  let tool_name : PyVal :=
    if mcp_tool.hasattr "name" then mcp_tool.getattrD "name" else .str (pyStrOf mcp_tool)
  let tool_description : PyVal :=
    if mcp_tool.hasattr "description" then mcp_tool.getattrD "description"
    else .str (pyStrOf tool_name ++ " 도구")
  let input_schema : PyVal :=
    if mcp_tool.hasattr "inputSchema" then mcp_tool.getattrD "inputSchema" else .dict []
  { name := server_name ++ "_" ++ pyStrOf tool_name
    description := "[" ++ server_name.toUpper ++ "] " ++ pyStrOf tool_description
    mcp_tool := [("name", tool_name), ("schema", input_schema)]
    session := some session
    server_name := server_name
    timeout_seconds := timeout_seconds }

/-- Transcription of `MCPServerManager.get_all_tools` (mcp_manager.py
lines 842–893).  The registry `self.servers` is a Python dict, iterated in
insertion order: a list of name/info pairs.  A provider whose
`is_connected` flag is false is skipped; a connected provider's tools are
wrapped only when its session handle is set (`if server_info.session:`).
Nothing in the loop body raises in this model, so the per-tool
`try/except` is silent. -/
def get_all_tools (servers : List (String × MCPServerInfo)) (timeout_seconds : ℚ) :
    List MCPToolWrapper :=
  servers.flatMap (fun entry =>
    if entry.2.is_connected then
      entry.2.tools.filterMap (fun mcp_tool =>
        (entry.2.session).map (fun session => wrap_mcp_tool entry.1 session timeout_seconds mcp_tool))
    else [])

/-- The combined effect of the i/o a `_start_*_mcp` attempt performs
(spawn `npx`, handshake, `list_tools`): either a connected session with
its discovered tool list, or an exception (e.g. `FileNotFoundError`),
which the function's `except` clauses catch. -/
inductive StartResult : Type where
  | ok (session : CallBehavior) (tools : List PyVal)
  | err (typeName message : String)

/-- Transcription of `MCPServerManager._start_grafana_mcp` (mcp_manager.py
lines 719–778): no config → `None`; startup succeeds → a connected
`MCPServerInfo` named "grafana" holding the session and discovered tools;
any exception → caught (logged) and `None`. -/
def start_grafana_mcp (grafana_config : Option GrafanaConfig) (attempt : StartResult) :
    Option MCPServerInfo :=
  match grafana_config with
  | Option.none => Option.none
  | some _ =>
    match attempt with
    | .ok session tools =>
      some { name := "grafana", session := some session, tools := tools, is_connected := true }
    | .err _ _ => Option.none

/-- Transcription of `MCPServerManager._start_cloudwatch_mcp`
(mcp_manager.py lines 780–840), same shape as the Grafana starter. -/
def start_cloudwatch_mcp (cloudwatch_config : Option CloudWatchConfig) (attempt : StartResult) :
    Option MCPServerInfo :=
  match cloudwatch_config with
  | Option.none => Option.none
  | some _ =>
    match attempt with
    | .ok session tools =>
      some { name := "cloudwatch", session := some session, tools := tools, is_connected := true }
    | .err _ _ => Option.none

/-- The manager state `initialize_servers` produces: the registry
`self.servers` and the `self._initialized` flag (read back through the
`is_initialized` property). -/
structure ManagerState : Type where
  servers : List (String × MCPServerInfo)
  is_initialized : Bool

/-- Transcription of `MCPServerManager.initialize_servers` (mcp_manager.py
lines 679–717).  Each configured provider is attempted in turn;
`_start_*_mcp` catch every exception internally and return `None`, so the
method's own `except ... raise` is unreachable and a failed provider is
simply not registered.  `self._initialized = True` runs after both
attempts unconditionally.  `rg`/`rc` are the two startup oracles. -/
def initialize_servers (grafana_config : Option GrafanaConfig)
    (cloudwatch_config : Option CloudWatchConfig) (rg rc : StartResult) : ManagerState :=
  let servers0 : List (String × MCPServerInfo) := []
  let servers1 :=
    match grafana_config with
    | some _ =>
      match start_grafana_mcp grafana_config rg with
      | some info => servers0 ++ [("grafana", info)]
      | Option.none => servers0
    | Option.none => servers0
  let servers2 :=
    match cloudwatch_config with
    | some _ =>
      match start_cloudwatch_mcp cloudwatch_config rc with
      | some info => servers1 ++ [("cloudwatch", info)]
      | Option.none => servers1
    | Option.none => servers1
  { servers := servers2, is_initialized := true }

/-- The Result Normalizer as spec §4.4 words it, in the spec's precedence
order (`None`; plain string; object exposing `content`; dict with
`text`/`result`/`data`; fallback stringification), with one amendment
forced by the code: a dict's `text` value is returned as-is, not coerced
to a string, while `result` and `data` values are passed through `str`.
Used only to compare with `process_mcp_result`, which is transcribed from
the source. -/
def normalizer_spec (result : PyVal) : Except String PyVal :=
  match result with
  | .none => .ok (.str "")
  | .str s => .ok (.str s)
  | r =>
    if r.hasattr "content" then
      let content := r.getattrD "content"
      match content with
      | .list blocks =>
        match allStrs (blocks.map contentBlockPart) with
        | some parts => .ok (.str (String.intercalate "\n" parts))
        | Option.none => .error "sequence item: expected str instance"
      | c =>
        if c.hasattr "text" then .ok (c.getattrD "text")
        else
          match c with
          | .str s => .ok (.str s)
          | .dict es =>
            match pyDictGet? es "text" with
            | some v => .ok v
            | Option.none => .ok (.str (pyStrOf c))
          | _ => .ok (.str (pyStrOf c))
    else
      match r with
      | .dict es =>
        match pyDictGet? es "text" with
        | some v => .ok v
        | Option.none =>
          match pyDictGet? es "result" with
          | some v => .ok (.str (pyStrOf v))
          | Option.none =>
            match pyDictGet? es "data" with
            | some v => .ok (.str (pyStrOf v))
            | Option.none => .ok (.str (pyStrOf r))
      | _ => .ok (.str (pyStrOf r))

/-- The operation name `get_all_tools` derives for one discovered tool:
`str` of its `name` attribute when present, else `str` of the tool itself
(mcp_manager.py line 867); the qualified adapter name is
`server_name ++ "_" ++ wrapOpName tool`. -/
def wrapOpName (mcp_tool : PyVal) : String :=
  pyStrOf (if mcp_tool.hasattr "name" then mcp_tool.getattrD "name" else .str (pyStrOf mcp_tool))

/-- A discovered operation named `opName`, as the provider's `list_tools`
reports it. -/
def opTool (opName : String) : PyVal :=
  .obj "Tool" [("name", .str opName), ("description", .str (opName ++ " op"))]

/-- Registry for spec §8's two-provider scenario: providerA and providerB,
both connected, each exposing one operation literally named "query". -/
def twoProviderServers : List (String × MCPServerInfo) :=
  [("providerA", { name := "providerA", session := some (.ok .none),
                   tools := [opTool "query"], is_connected := true }),
   ("providerB", { name := "providerB", session := some (.ok .none),
                   tools := [opTool "query"], is_connected := true })]

/-- Registry refuting global qualified-name uniqueness: provider "a" with
operation "b_c" and provider "a_b" with operation "c" both yield the
qualified name "a_b_c". -/
def collidingServers : List (String × MCPServerInfo) :=
  [("a", { name := "a", session := some (.ok .none),
           tools := [opTool "b_c"], is_connected := true }),
   ("a_b", { name := "a_b", session := some (.ok .none),
             tools := [opTool "c"], is_connected := true })]

/-- Registry for spec §8's connectivity scenario: provider A connected
with 3 operations, provider B disconnected with 2 operations. -/
def mixedServers : List (String × MCPServerInfo) :=
  [("A", { name := "A", session := some (.ok .none),
           tools := [opTool "op1", opTool "op2", opTool "op3"], is_connected := true }),
   ("B", { name := "B", session := some (.ok .none),
           tools := [opTool "op4", opTool "op5"], is_connected := false })]

/-- An adapter whose wrapped call raises a generic `RuntimeError("boom")`:
the counterexample input for the user-visible-message claim. -/
def runtimeErrWrapper : MCPToolWrapper :=
  { name := "grafana_query", description := "[GRAFANA] query",
    mcp_tool := [("name", .str "query"), ("schema", .dict [])],
    session := some (.raises "RuntimeError" "boom"),
    server_name := "grafana", timeout_seconds := 30 }

/-- The qualified adapter names one registry entry contributes to
`get_all_tools`: `{provider}_{operation}` for each of its tools when the
provider is connected and holds a session, nothing otherwise. -/
def entryQualifiedNames (entry : String × MCPServerInfo) : List String :=
  if entry.2.is_connected && entry.2.session.isSome then
    entry.2.tools.map (fun t => entry.1 ++ "_" ++ wrapOpName t)
  else []

/-! ### Theorems -/

/-- `_format_error_details` never yields an empty message: every table
entry is a non-empty literal and the default bucket embeds ": ". -/
theorem format_error_details_ne_empty (typeName message : String) :
    format_error_details typeName message ≠ "" := by
  unfold format_error_details
  split_ifs with h1 h2 h3 h4 h5 h6
  · decide
  · decide
  · decide
  · decide
  · intro h
    have := congrArg String.length h
    simp [String.length_append] at this
    exact absurd this.1 (by decide)
  · intro h
    have := congrArg String.length h
    simp [String.length_append] at this
    exact absurd this.1 (by decide)
  · intro h
    have := congrArg String.length h
    have h2 : (": " : String).length = 2 := rfl
    simp [String.length_append, h2] at this

/-- C2 (amended): `_process_mcp_result` implements exactly the §4.4
precedence — `None` ↦ `""`; a plain string as-is; an object exposing
`content` unwrapped (list elements joined by newlines via text attribute /
string form / dict `text` key / stringification; a single object's `text`
returned; a string or a `text`-keyed dict unwrapped); a dict's `text`
value returned **as-is (uncoerced)** while `result` and `data` values are
coerced with `str`, in that order; everything else stringified — and the
four round-trip cases hold: `{"text": "42%"}` ↦ `"42%"`, an object with
`content = [{"text": "a"}, {"text": "b"}]` ↦ `"a\nb"`, `None` ↦ `""`,
`"ok"` ↦ `"ok"`.  The last three conjuncts evidence the amendment's
remaining promises concretely: `{"result": 7}` and `{"data": 7}` are
coerced to `"7"`, and `text` is checked before `result` even when
`result` is inserted first.  (The source checks the `content` attribute
before the plain-string case, but a Python `str` never exposes `content`,
so the two orderings define the same function.) -/
theorem process_mcp_result_matches_spec :
    (∀ result : PyVal, process_mcp_result result = normalizer_spec result)
    ∧ process_mcp_result (.dict [("text", .str "42%")]) = .ok (.str "42%")
    ∧ process_mcp_result
        (.obj "CallToolResult"
          [("content", .list [.dict [("text", .str "a")], .dict [("text", .str "b")]])])
        = .ok (.str "a\nb")
    ∧ process_mcp_result .none = .ok (.str "")
    ∧ process_mcp_result (.str "ok") = .ok (.str "ok")
    ∧ process_mcp_result (.dict [("result", .int 7)]) = .ok (.str "7")
    ∧ process_mcp_result (.dict [("data", .int 7)]) = .ok (.str "7")
    ∧ process_mcp_result (.dict [("result", .str "b"), ("text", .str "a")])
        = .ok (.str "a") :=
  ⟨fun result => by cases result <;> rfl, rfl, rfl, rfl, rfl, rfl, rfl, rfl⟩

/-- C2 counterexample: for the dict `{"text": 5}` the source returns the
*int* `5` itself (`return result['text']`, mcp_manager.py line 390 — no
`str(...)` around it), not the string "5" the claim's "coerced to string
if needed" promises. -/
theorem process_mcp_result_text_key_uncoerced :
    process_mcp_result (.dict [("text", .int 5)]) = .ok (.int 5)
    ∧ process_mcp_result (.dict [("text", .int 5)]) ≠ .ok (.str "5") := by
  refine ⟨rfl, ?_⟩
  intro h
  have h' : (Except.ok (PyVal.int 5) : Except String PyVal) = Except.ok (PyVal.str "5") := h
  injection h' with h''
  injection h''

/-- C3: with an absent session handle the executor immediately returns a
`CONNECTION_ERROR` outcome; `session.call_tool` is never started and
`asyncio.wait_for` never races the timeout (the only suspension point of
`execute_mcp_tool`), so nothing is waited on before returning. -/
theorem execute_mcp_tool_absent_session (tool_name server_name : String)
    (arguments : List (String × PyVal)) (timeout_seconds elapsed_ms : ℚ) :
    (execute_mcp_tool Option.none tool_name server_name arguments
        timeout_seconds elapsed_ms).1.status = .connection_error
    ∧ (execute_mcp_tool Option.none tool_name server_name arguments
        timeout_seconds elapsed_ms).2.callInvoked = false
    ∧ (execute_mcp_tool Option.none tool_name server_name arguments
        timeout_seconds elapsed_ms).2.waitedOnTimeout = false :=
  ⟨rfl, rfl, rfl⟩

/-- C4: when the timeout race is lost the outcome has status `TIMEOUT`,
its message embeds the configured `timeout_seconds` rendering, and the
elapsed wall-clock reading is recorded in `execution_time_ms`. -/
theorem execute_mcp_tool_timeout (tool_name server_name : String)
    (arguments : List (String × PyVal)) (timeout_seconds elapsed_ms : ℚ) :
    (execute_mcp_tool (some .timesOut) tool_name server_name arguments
        timeout_seconds elapsed_ms).1.status = .timeout
    ∧ (execute_mcp_tool (some .timesOut) tool_name server_name arguments
        timeout_seconds elapsed_ms).1.error_message
        = some ("도구 실행 시간 초과 (" ++ floatRepr timeout_seconds ++ "초)")
    ∧ (execute_mcp_tool (some .timesOut) tool_name server_name arguments
        timeout_seconds elapsed_ms).1.execution_time_ms = elapsed_ms :=
  ⟨rfl, rfl, rfl⟩

/-- Executor outcome when the raced call raises a foreign exception:
generic `except Exception` bucket, `ERROR` status, classified message. -/
theorem execute_raises_eq (typeName message tool_name server_name : String)
    (arguments : List (String × PyVal)) (timeout_seconds elapsed_ms : ℚ) :
    execute_mcp_tool (some (.raises typeName message)) tool_name server_name arguments
        timeout_seconds elapsed_ms
      = (⟨tool_name, server_name, .error, Option.none,
          some (format_error_details typeName message), elapsed_ms, arguments⟩,
         ⟨true, true⟩) := rfl

/-- Executor outcome for an absent session. -/
theorem execute_none_eq (tool_name server_name : String)
    (arguments : List (String × PyVal)) (timeout_seconds elapsed_ms : ℚ) :
    execute_mcp_tool Option.none tool_name server_name arguments timeout_seconds elapsed_ms
      = (⟨tool_name, server_name, .connection_error, Option.none,
          some ("[" ++ server_name ++ "] 도구 '" ++ tool_name ++ "' 오류: "
            ++ "MCP 세션이 None입니다. 서버 연결을 확인하세요."),
          elapsed_ms, arguments⟩,
         ⟨false, false⟩) := rfl

/-- Executor outcome when the race is lost. -/
theorem execute_timesOut_eq (tool_name server_name : String)
    (arguments : List (String × PyVal)) (timeout_seconds elapsed_ms : ℚ) :
    execute_mcp_tool (some .timesOut) tool_name server_name arguments timeout_seconds elapsed_ms
      = (⟨tool_name, server_name, .timeout, Option.none,
          some ("도구 실행 시간 초과 (" ++ floatRepr timeout_seconds ++ "초)"),
          elapsed_ms, arguments⟩,
         ⟨true, true⟩) := rfl

/-- The executor never reports `CONNECTION_ERROR` for a present session:
the only raise of `MCPToolConnectionError` in `execute_mcp_tool` is the
session-is-None guard. -/
theorem execute_some_status_ne_connection_error (call : CallBehavior)
    (tool_name server_name : String) (arguments : List (String × PyVal))
    (timeout_seconds elapsed_ms : ℚ) :
    (execute_mcp_tool (some call) tool_name server_name arguments timeout_seconds
        elapsed_ms).1.status ≠ .connection_error := by
  cases call with
  | ok v =>
    rcases hp : process_mcp_result v with msg | rv
    · simp [execute_mcp_tool, hp]
    · cases rv <;> simp [execute_mcp_tool, hp]
  | raises t m => simp [execute_raises_eq]
  | timesOut => simp [execute_timesOut_eq]

/-- C1: `ExecutionError`, `Timeout` and `ValidationError` are captured
into a structured outcome and never thrown past the executor, while
`ConnectionError` is the sole class `_arun` re-raises.  Concretely: (a)
any exception the underlying call raises — necessarily foreign to this
module's exception classes, so e.g. `ValueError("boom")` — yields an
`ERROR` ("ExecutionError") outcome with a non-empty classified message and
`_arun` still returns text; (b) `_arun` returns text exactly when the
outcome's status is not `CONNECTION_ERROR`, and anything it raises is an
`MCPToolConnectionError` for this tool and server. -/
theorem executor_propagation_policy :
    (∀ (w : MCPToolWrapper) (kwargs : List (String × PyVal)) (elapsed_ms : ℚ)
        (typeName message : String),
      w.session = some (.raises typeName message) →
        (execute_mcp_tool w.session w.name w.server_name kwargs w.timeout_seconds
            elapsed_ms).1.status = .error
        ∧ (∃ msg,
            (execute_mcp_tool w.session w.name w.server_name kwargs w.timeout_seconds
                elapsed_ms).1.error_message = some msg ∧ msg ≠ "")
        ∧ (w.arun kwargs elapsed_ms).isOk = true)
    ∧ (∀ (w : MCPToolWrapper) (kwargs : List (String × PyVal)) (elapsed_ms : ℚ),
        ((w.arun kwargs elapsed_ms).isOk = true ↔
          (execute_mcp_tool w.session w.name w.server_name kwargs w.timeout_seconds
              elapsed_ms).1.status ≠ .connection_error)
        ∧ ∀ e, w.arun kwargs elapsed_ms = .error e →
            ∃ msg, e = .mcpToolConnectionError w.name w.server_name msg) := by
  constructor
  · intro w kwargs elapsed_ms typeName message h
    refine ⟨by rw [h, execute_raises_eq],
      ⟨format_error_details typeName message, by rw [h, execute_raises_eq],
        format_error_details_ne_empty typeName message⟩, ?_⟩
    simp [MCPToolWrapper.arun, h, execute_raises_eq, Except.isOk, Except.toBool]
  · intro w kwargs elapsed_ms
    constructor
    · rcases hs : w.session with _ | call
      · simp [MCPToolWrapper.arun, hs, execute_none_eq, Except.isOk, Except.toBool]
      · cases call with
        | ok v =>
          rcases hp : process_mcp_result v with msg | rv
          · simp [MCPToolWrapper.arun, hs, execute_mcp_tool, hp, Except.isOk, Except.toBool]
          · cases rv <;> simp [MCPToolWrapper.arun, hs, execute_mcp_tool, hp, Except.isOk, Except.toBool]
        | raises t m => simp [MCPToolWrapper.arun, hs, execute_raises_eq, Except.isOk, Except.toBool]
        | timesOut => simp [MCPToolWrapper.arun, hs, execute_timesOut_eq, Except.isOk, Except.toBool]
    · intro e he
      rcases hs : w.session with _ | call
      · refine ⟨pyOrStr (some ("[" ++ w.server_name ++ "] 도구 '" ++ w.name ++ "' 오류: "
          ++ "MCP 세션이 None입니다. 서버 연결을 확인하세요.")) "연결 오류", ?_⟩
        rw [MCPToolWrapper.arun, hs] at he
        simp [execute_none_eq] at he
        exact he.symm
      · exfalso
        have hne := execute_some_status_ne_connection_error call w.name w.server_name
          kwargs w.timeout_seconds elapsed_ms
        cases call with
        | ok v =>
          rcases hp : process_mcp_result v with msg | rv
          · simp [MCPToolWrapper.arun, hs, execute_mcp_tool, hp] at he
          · cases rv <;> simp [MCPToolWrapper.arun, hs, execute_mcp_tool, hp] at he
        | raises t m => simp [MCPToolWrapper.arun, hs, execute_raises_eq] at he
        | timesOut => simp [MCPToolWrapper.arun, hs, execute_timesOut_eq] at he

/-- C1 witness: the policy at a concrete raising call
(`ValueError("boom")`) and at the concrete adapter. -/
theorem executor_propagation_policy_witness :
    ((execute_mcp_tool (some (.raises "ValueError" "boom")) "grafana_query" "grafana" []
        30 5).1.status = .error
      ∧ (∃ msg,
          (execute_mcp_tool (some (.raises "ValueError" "boom")) "grafana_query" "grafana" []
              30 5).1.error_message = some msg ∧ msg ≠ "")
      ∧ ((MCPToolWrapper.mk "grafana_query" "" [] (some (.raises "ValueError" "boom"))
            "grafana" 30).arun [] 5).isOk = true)
    ∧ (((MCPToolWrapper.mk "grafana_query" "" [] (some (.raises "ValueError" "boom"))
          "grafana" 30).arun [] 5).isOk = true ↔
        (execute_mcp_tool (some (.raises "ValueError" "boom")) "grafana_query" "grafana" []
            30 5).1.status ≠ .connection_error) :=
  ⟨executor_propagation_policy.1
      (MCPToolWrapper.mk "grafana_query" "" [] (some (.raises "ValueError" "boom")) "grafana" 30)
      [] 5 "ValueError" "boom" rfl,
   (executor_propagation_policy.2
      (MCPToolWrapper.mk "grafana_query" "" [] (some (.raises "ValueError" "boom")) "grafana" 30)
      [] 5).1⟩

/-- Sanitizing never changes a key. -/
theorem sanitizeEntry_fst (kv : String × PyVal) : (sanitizeEntry kv).1 = kv.1 := by
  rcases kv with ⟨k, v⟩
  by_cases h : isSensitiveKey k = true
  · simp [sanitizeEntry, h]
  · rcases v <;> simp [sanitizeEntry, h]
    split <;> rfl

/-- C7: the sanitized logging representation replaces every sensitive
key's value with the fixed marker, truncates every other over-long string
value to its first 100 characters with a character-count annotation, and
passes every other pair through unchanged. -/
theorem sanitize_arguments_spec (args : List (String × PyVal)) (k : String) (v : PyVal)
    (hmem : (k, v) ∈ args) :
    (isSensitiveKey k = true →
      (k, PyVal.str "***REDACTED***") ∈ sanitize_arguments_for_logging args)
    ∧ (isSensitiveKey k = false → ∀ s, v = .str s → 200 < s.length →
      (k, PyVal.str (s.take 100 ++ "...(" ++ toString s.length ++ " chars)"))
        ∈ sanitize_arguments_for_logging args)
    ∧ (isSensitiveKey k = false → (∀ s, v = .str s → s.length ≤ 200) →
      (k, v) ∈ sanitize_arguments_for_logging args) := by
  refine ⟨?_, ?_, ?_⟩
  · intro hsens
    refine List.mem_map.mpr ⟨(k, v), hmem, ?_⟩
    simp [sanitizeEntry, hsens]
  · intro hno s hv hlen
    subst hv
    refine List.mem_map.mpr ⟨(k, .str s), hmem, ?_⟩
    simp [sanitizeEntry, hno, hlen]
  · intro hno hshort
    refine List.mem_map.mpr ⟨(k, v), hmem, ?_⟩
    rcases v with _ | b | n | s | xs | es | ⟨cls, attrs⟩ <;> simp [sanitizeEntry, hno]
    exact fun h => absurd (hshort s rfl) (by omega)

/-- C7 witness: a map with a sensitive key, an over-long value and a
plain pair. -/
theorem sanitize_arguments_spec_witness :
    ((isSensitiveKey "api_key" = true →
      ("api_key", PyVal.str "***REDACTED***")
        ∈ sanitize_arguments_for_logging
            [("api_key", PyVal.str "hunter2"), ("query", PyVal.str "cpu")]))
    ∧ ("query", PyVal.str "cpu")
        ∈ sanitize_arguments_for_logging
            [("api_key", PyVal.str "hunter2"), ("query", PyVal.str "cpu")] :=
  ⟨(sanitize_arguments_spec [("api_key", PyVal.str "hunter2"), ("query", PyVal.str "cpu")]
      "api_key" (PyVal.str "hunter2") (by simp)).1,
   (sanitize_arguments_spec [("api_key", PyVal.str "hunter2"), ("query", PyVal.str "cpu")]
      "query" (PyVal.str "cpu") (by simp)).2.2 (by decide)
      (fun s hs => by injection hs with hs; subst hs; decide)⟩

/-- C10: sanitizing preserves the key sequence (hence the key set), the
input itself is untouched (the source builds a fresh dict — the embedding
is a pure function, see `sanitize_arguments_for_logging`), and for a
sensitive key holding an over-long string the redaction wins: the output
value is the marker and differs from the truncation that the length rule
alone would have produced. -/
theorem sanitize_arguments_keys_and_precedence (args : List (String × PyVal)) :
    ((sanitize_arguments_for_logging args).map Prod.fst = args.map Prod.fst)
    ∧ (∀ k s, (k, PyVal.str s) ∈ args → isSensitiveKey k = true → 200 < s.length →
        (k, PyVal.str "***REDACTED***") ∈ sanitize_arguments_for_logging args
        ∧ PyVal.str "***REDACTED***"
            ≠ PyVal.str (s.take 100 ++ "...(" ++ toString s.length ++ " chars)")) := by
  constructor
  · rw [sanitize_arguments_for_logging, List.map_map]
    exact List.map_congr_left (fun kv _ => sanitizeEntry_fst kv)
  · intro k s hmem hsens hlen
    constructor
    · refine List.mem_map.mpr ⟨(k, .str s), hmem, ?_⟩
      simp [sanitizeEntry, hsens]
    · intro heq
      injection heq with heq
      have h2 := congrArg String.length heq
      have hlen100 : (s.take 100).length = 100 := by
        have hd : (s.take 100).data = s.data.take 100 := String.data_take s 100
        have h1 : (s.take 100).data.length = (s.data.take 100).length :=
          congrArg List.length hd
        rw [String.length_data, List.length_take, String.length_data] at h1
        omega
      rw [String.length_append, String.length_append, String.length_append, hlen100] at h2
      have e1 : ("***REDACTED***" : String).length = 14 := rfl
      have e2 : ("...(" : String).length = 4 := rfl
      have e3 : (" chars)" : String).length = 7 := rfl
      omega

set_option maxRecDepth 4000 in
/-- C10 witness: a sensitive key holding a 201-character secret. -/
theorem sanitize_arguments_keys_and_precedence_witness :
    ("token", PyVal.str "***REDACTED***")
      ∈ sanitize_arguments_for_logging
          [("token", PyVal.str (String.mk (List.replicate 201 'a')))] :=
  ((sanitize_arguments_keys_and_precedence
      [("token", PyVal.str (String.mk (List.replicate 201 'a')))]).2
    "token" (String.mk (List.replicate 201 'a')) (by simp) (by decide) (by decide)).1

/-- C8 (amended): a `Timeout` failure surfaces the fixed
tool/provider-specific template (built from the adapter's name and server
only — no exception text, no argument values); an `ExecutionError`
failure surfaces the error template with the outcome's *classified* error
message appended, which for `ValueError`/`TypeError` and unrecognized
exception types embeds the raw exception string.  Stack traces go only to
debug logging, never into the returned text. -/
theorem user_facing_failure_messages :
    (∀ (w : MCPToolWrapper) (kwargs : List (String × PyVal)) (elapsed_ms : ℚ),
      w.session = some .timesOut →
        w.arun kwargs elapsed_ms
          = .ok ("도구 '" ++ w.name ++ "' 실행이 시간 초과되었습니다. 서버("
              ++ w.server_name ++ ")가 응답하지 않습니다."))
    ∧ (∀ (w : MCPToolWrapper) (kwargs : List (String × PyVal)) (elapsed_ms : ℚ)
        (typeName message : String),
      w.session = some (.raises typeName message) →
        w.arun kwargs elapsed_ms
          = .ok ("도구 '" ++ w.name ++ "' 실행 중 오류가 발생했습니다: "
              ++ format_error_details typeName message)) := by
  constructor
  · intro w kwargs elapsed_ms h
    simp [MCPToolWrapper.arun, h, execute_timesOut_eq, create_error_response, optFieldStr]
  · intro w kwargs elapsed_ms typeName message h
    simp [MCPToolWrapper.arun, h, execute_raises_eq, create_error_response, optFieldStr]

/-- C8 counterexample: a generic `RuntimeError("boom")` raised by the
call makes the adapter return a message that embeds the raw exception
text "RuntimeError: boom" — the claim's "never contains raw exception
text" fails. -/
theorem raw_exception_text_surfaced :
    runtimeErrWrapper.arun [] 5
        = .ok ("도구 'grafana_query' 실행 중 오류가 발생했습니다: RuntimeError: boom")
    ∧ strContains "도구 'grafana_query' 실행 중 오류가 발생했습니다: RuntimeError: boom" "boom"
        = true :=
  ⟨rfl, by decide⟩

/-- C8 witness: the amended statement at the concrete raising adapter and
at a concrete timing-out adapter. -/
theorem user_facing_failure_messages_witness :
    runtimeErrWrapper.arun [] 5
        = .ok ("도구 '" ++ runtimeErrWrapper.name ++ "' 실행 중 오류가 발생했습니다: "
            ++ format_error_details "RuntimeError" "boom")
    ∧ (MCPToolWrapper.mk "grafana_query" "" [] (some .timesOut) "grafana" 30).arun [] 5
        = .ok ("도구 '" ++ "grafana_query" ++ "' 실행이 시간 초과되었습니다. 서버("
            ++ "grafana" ++ ")가 응답하지 않습니다.") :=
  ⟨user_facing_failure_messages.2 runtimeErrWrapper [] 5 "RuntimeError" "boom" rfl,
   user_facing_failure_messages.1
      (MCPToolWrapper.mk "grafana_query" "" [] (some .timesOut) "grafana" 30) [] 5 rfl⟩

/-- C9: per-provider startup failures are isolated — a failed provider is
absent from the registry, the other provider's registration does not
depend on it — and after all attempts the manager is initialized
regardless of how many providers succeeded (zero included: with both
oracles failing the registry is empty and the flag is still set). -/
theorem initialize_servers_isolates_failures (grafana_config : Option GrafanaConfig)
    (cloudwatch_config : Option CloudWatchConfig) (rg rc : StartResult) :
    (initialize_servers grafana_config cloudwatch_config rg rc).is_initialized = true
    ∧ (∀ t m, rg = .err t m →
        ((initialize_servers grafana_config cloudwatch_config rg rc).servers.lookup
          "grafana") = Option.none)
    ∧ (∀ t m, rc = .err t m →
        ((initialize_servers grafana_config cloudwatch_config rg rc).servers.lookup
          "cloudwatch") = Option.none)
    ∧ (∀ rg', ((initialize_servers grafana_config cloudwatch_config rg rc).servers.lookup
          "cloudwatch")
        = ((initialize_servers grafana_config cloudwatch_config rg' rc).servers.lookup
          "cloudwatch"))
    ∧ (∀ rc', ((initialize_servers grafana_config cloudwatch_config rg rc).servers.lookup
          "grafana")
        = ((initialize_servers grafana_config cloudwatch_config rg rc').servers.lookup
          "grafana")) := by
  refine ⟨rfl, ?_, ?_, ?_, ?_⟩
  · rintro t m rfl
    rcases grafana_config with _ | g <;> rcases cloudwatch_config with _ | c <;>
      rcases rc with ⟨s2, t2⟩ | ⟨t2, m2⟩ <;> rfl
  · rintro t m rfl
    rcases grafana_config with _ | g <;> rcases cloudwatch_config with _ | c <;>
      rcases rg with ⟨s1, t1⟩ | ⟨t1, m1⟩ <;> rfl
  · intro rg'
    rcases grafana_config with _ | g <;> rcases cloudwatch_config with _ | c <;>
      rcases rg with ⟨s1, t1⟩ | ⟨t1, m1⟩ <;> rcases rg' with ⟨s3, t3⟩ | ⟨t3, m3⟩ <;>
      rcases rc with ⟨s2, t2⟩ | ⟨t2, m2⟩ <;> rfl
  · intro rc'
    rcases grafana_config with _ | g <;> rcases cloudwatch_config with _ | c <;>
      rcases rc with ⟨s2, t2⟩ | ⟨t2, m2⟩ <;> rcases rc' with ⟨s3, t3⟩ | ⟨t3, m3⟩ <;>
      rcases rg with ⟨s1, t1⟩ | ⟨t1, m1⟩ <;> rfl

/-- C9 witness: Grafana's startup fails while CloudWatch's succeeds — the
manager is initialized, Grafana is absent, CloudWatch is registered
exactly as it would be had Grafana succeeded. -/
theorem initialize_servers_isolates_failures_witness :
    (initialize_servers (some ⟨"http://grafana", "key"⟩) (some ⟨"ak", "sk", "us-east-1"⟩)
        (.err "RuntimeError" "spawn failed") (.ok (.ok .none) [opTool "query"])).is_initialized
        = true
    ∧ ((initialize_servers (some ⟨"http://grafana", "key"⟩) (some ⟨"ak", "sk", "us-east-1"⟩)
        (.err "RuntimeError" "spawn failed") (.ok (.ok .none) [opTool "query"])).servers.lookup
        "grafana") = Option.none
    ∧ ((initialize_servers (some ⟨"http://grafana", "key"⟩) (some ⟨"ak", "sk", "us-east-1"⟩)
        (.err "RuntimeError" "spawn failed") (.ok (.ok .none) [opTool "query"])).servers.lookup
        "cloudwatch")
      = ((initialize_servers (some ⟨"http://grafana", "key"⟩) (some ⟨"ak", "sk", "us-east-1"⟩)
        (.ok (.ok .none) [opTool "g"]) (.ok (.ok .none) [opTool "query"])).servers.lookup
        "cloudwatch") :=
  ⟨(initialize_servers_isolates_failures (some ⟨"http://grafana", "key"⟩)
      (some ⟨"ak", "sk", "us-east-1"⟩) (.err "RuntimeError" "spawn failed")
      (.ok (.ok .none) [opTool "query"])).1,
   (initialize_servers_isolates_failures (some ⟨"http://grafana", "key"⟩)
      (some ⟨"ak", "sk", "us-east-1"⟩) (.err "RuntimeError" "spawn failed")
      (.ok (.ok .none) [opTool "query"])).2.1 "RuntimeError" "spawn failed" rfl,
   (initialize_servers_isolates_failures (some ⟨"http://grafana", "key"⟩)
      (some ⟨"ak", "sk", "us-east-1"⟩) (.err "RuntimeError" "spawn failed")
      (.ok (.ok .none) [opTool "query"])).2.2.2.1 (.ok (.ok .none) [opTool "g"])⟩

/-- Membership in the aggregate: an adapter comes from a registered,
connected entry with a live session, wrapping one of its tools. -/
theorem mem_get_all_tools {servers : List (String × MCPServerInfo)} {timeout_seconds : ℚ}
    {w : MCPToolWrapper} :
    w ∈ get_all_tools servers timeout_seconds ↔
      ∃ entry, entry ∈ servers ∧ entry.2.is_connected = true ∧
        ∃ session, entry.2.session = some session ∧
          ∃ t, t ∈ entry.2.tools ∧ w = wrap_mcp_tool entry.1 session timeout_seconds t := by
  constructor
  · intro h
    rcases List.mem_flatMap.mp h with ⟨entry, hentry, hw⟩
    by_cases hc : entry.2.is_connected = true
    · rw [if_pos hc] at hw
      rcases List.mem_filterMap.mp hw with ⟨t, ht, hmap⟩
      rcases hsess : entry.2.session with _ | sess
      · rw [hsess] at hmap
        exact Option.noConfusion hmap
      · rw [hsess] at hmap
        exact ⟨entry, hentry, hc, sess, hsess, t, ht, (Option.some.inj hmap).symm⟩
    · rw [if_neg hc] at hw
      exact absurd hw (List.not_mem_nil w)
  · rintro ⟨entry, hentry, hc, sess, hsess, t, ht, rfl⟩
    refine List.mem_flatMap.mpr ⟨entry, hentry, ?_⟩
    rw [if_pos hc]
    exact List.mem_filterMap.mpr ⟨t, ht, by rw [hsess]; rfl⟩

/-- The adapter name built by the aggregator loop. -/
theorem wrap_mcp_tool_name (server_name : String) (session : CallBehavior)
    (timeout_seconds : ℚ) (mcp_tool : PyVal) :
    (wrap_mcp_tool server_name session timeout_seconds mcp_tool).name
      = server_name ++ "_" ++ wrapOpName mcp_tool := rfl

/-- The names contributed by one connected entry with a live session. -/
theorem entry_names_eq (p : String) (sess : CallBehavior) (timeout_seconds : ℚ)
    (tools : List PyVal) :
    ((tools.filterMap (fun t => (some sess).map
        (fun session => wrap_mcp_tool p session timeout_seconds t))).map
      (fun w => w.name))
      = tools.map (fun t => p ++ "_" ++ wrapOpName t) := by
  induction tools with
  | nil => rfl
  | cons t ts ih =>
    simp only [Option.map_some'] at ih ⊢
    simp [List.filterMap_cons, ih, wrap_mcp_tool_name]

/-- The names contributed by one registry entry, in closed form. -/
theorem entry_names_full (e : String × MCPServerInfo) (timeout_seconds : ℚ) :
    ((if e.2.is_connected = true then
        e.2.tools.filterMap (fun t => (e.2.session).map
          (fun session => wrap_mcp_tool e.1 session timeout_seconds t))
      else []).map (fun w => w.name)) = entryQualifiedNames e := by
  by_cases hc : e.2.is_connected = true
  · rw [if_pos hc]
    rcases hsess : e.2.session with _ | sess
    · simp [hsess, entryQualifiedNames, hc]
    · rw [entry_names_eq]
      unfold entryQualifiedNames
      rw [hc, hsess]
      rfl
  · rw [if_neg hc]
    simp [entryQualifiedNames, hc]

/-- The aggregate's name list is the concatenation of each entry's
qualified names. -/
theorem map_name_get_all_tools (servers : List (String × MCPServerInfo))
    (timeout_seconds : ℚ) :
    (get_all_tools servers timeout_seconds).map (fun w => w.name)
      = servers.flatMap entryQualifiedNames := by
  induction servers with
  | nil => rfl
  | cons e es ih =>
    have hsplit : get_all_tools (e :: es) timeout_seconds
        = (if e.2.is_connected = true then
            e.2.tools.filterMap (fun t => (e.2.session).map
              (fun session => wrap_mcp_tool e.1 session timeout_seconds t))
          else []) ++ get_all_tools es timeout_seconds := rfl
    rw [hsplit, List.map_append, entry_names_full, ih, List.flatMap_cons]

/-- Splitting a concatenation at a separator absent from both left
parts. -/
theorem append_cons_inj {l₁ l₂ r₁ r₂ : List Char} {c : Char}
    (h₁ : c ∉ l₁) (h₂ : c ∉ l₂) (h : l₁ ++ c :: r₁ = l₂ ++ c :: r₂) :
    l₁ = l₂ ∧ r₁ = r₂ := by
  induction l₁ generalizing l₂ with
  | nil =>
    cases l₂ with
    | nil => simpa using h
    | cons b t =>
      simp only [List.nil_append, List.cons_append, List.cons.injEq] at h
      obtain ⟨rfl, -⟩ := h
      exact absurd (List.mem_cons_self _ _) h₂
  | cons a t ih =>
    cases l₂ with
    | nil =>
      simp only [List.cons_append, List.nil_append, List.cons.injEq] at h
      obtain ⟨rfl, -⟩ := h
      exact absurd (List.mem_cons_self _ _) h₁
    | cons b u =>
      simp only [List.cons_append, List.cons.injEq] at h
      obtain ⟨rfl, h'⟩ := h
      have h₁' : c ∉ t := fun hm => h₁ (List.mem_cons_of_mem _ hm)
      have h₂' : c ∉ u := fun hm => h₂ (List.mem_cons_of_mem _ hm)
      obtain ⟨he, hr⟩ := ih h₁' h₂' h'
      exact ⟨by rw [he], hr⟩

/-- `{provider}_{operation}` is injective as long as provider names are
underscore-free. -/
theorem qualified_name_inj {p₁ p₂ o₁ o₂ : String}
    (h₁ : '_' ∉ p₁.data) (h₂ : '_' ∉ p₂.data)
    (h : p₁ ++ "_" ++ o₁ = p₂ ++ "_" ++ o₂) : p₁ = p₂ ∧ o₁ = o₂ := by
  have hd := congrArg String.data h
  simp only [String.data_append] at hd
  rw [List.append_assoc, List.append_assoc] at hd
  have hd' : p₁.data ++ '_' :: o₁.data = p₂.data ++ '_' :: o₂.data := hd
  obtain ⟨hp, ho⟩ := append_cons_inj h₁ h₂ hd'
  exact ⟨String.ext hp, String.ext ho⟩

/-- Appending distinct operation names to one provider tag keeps them
distinct. -/
theorem qualified_left_cancel {p a b : String}
    (h : p ++ "_" ++ a = p ++ "_" ++ b) : a = b := by
  have hd := congrArg String.data h
  simp only [String.data_append] at hd
  exact String.ext (List.append_cancel_left hd)

/-- Any name an entry contributes is its provider tag, an underscore and
an operation name. -/
theorem mem_entryQualifiedNames {e : String × MCPServerInfo} {x : String}
    (hx : x ∈ entryQualifiedNames e) :
    ∃ t, t ∈ e.2.tools ∧ x = e.1 ++ "_" ++ wrapOpName t := by
  unfold entryQualifiedNames at hx
  split at hx
  · rcases List.mem_map.mp hx with ⟨t, ht, heq⟩
    exact ⟨t, ht, heq.symm⟩
  · exact absurd hx (List.not_mem_nil x)

/-- One entry's qualified names are duplicate-free when its derived
operation names are. -/
theorem entryQualifiedNames_nodup {e : String × MCPServerInfo}
    (hops : ((e.2.tools).map wrapOpName).Nodup) : (entryQualifiedNames e).Nodup := by
  unfold entryQualifiedNames
  split
  · have hmm : e.2.tools.map (fun t => e.1 ++ "_" ++ wrapOpName t)
        = ((e.2.tools).map wrapOpName).map (fun o => e.1 ++ "_" ++ o) := by
      rw [List.map_map]
      rfl
    rw [hmm]
    exact hops.map (fun a b hab => qualified_left_cancel hab)
  · exact List.nodup_nil

/-- C5 (amended): every adapter produced by `get_all_tools` is named
`{provider}_{operation}` with its provider's name prepended; two
registered providers with the distinct names providerA and providerB each
exposing an operation named "query" yield exactly the two distinct
adapters `providerA_query` and `providerB_query`; and qualified names are
unique across the whole aggregate *provided* provider names are
underscore-free and each provider's derived operation names are
duplicate-free — prepending alone does not make collisions impossible
(see the counterexample). -/
theorem get_all_tools_qualified_names :
    (∀ (servers : List (String × MCPServerInfo)) (timeout_seconds : ℚ)
        (w : MCPToolWrapper),
      w ∈ get_all_tools servers timeout_seconds →
        ∃ entry op, entry ∈ servers ∧ w.server_name = entry.1
          ∧ w.name = entry.1 ++ "_" ++ op)
    ∧ ((get_all_tools twoProviderServers 30).map (fun w => w.name)
        = ["providerA_query", "providerB_query"])
    ∧ ((get_all_tools twoProviderServers 30).map (fun w => w.name)).Nodup
    ∧ (∀ (servers : List (String × MCPServerInfo)) (timeout_seconds : ℚ),
        (servers.map Prod.fst).Nodup →
        (∀ entry, entry ∈ servers → '_' ∉ entry.1.data) →
        (∀ entry, entry ∈ servers → ((entry.2.tools).map wrapOpName).Nodup) →
        ((get_all_tools servers timeout_seconds).map (fun w => w.name)).Nodup) := by
  refine ⟨?_, rfl, ?_, ?_⟩
  · intro servers timeout_seconds w hw
    rcases mem_get_all_tools.mp hw with ⟨entry, hentry, hc, sess, hsess, t, ht, rfl⟩
    exact ⟨entry, wrapOpName t, hentry, rfl, rfl⟩
  · simp only [show (get_all_tools twoProviderServers 30).map (fun w => w.name)
        = ["providerA_query", "providerB_query"] from rfl]
    decide
  · intro servers timeout_seconds hkeys hflat hops
    rw [map_name_get_all_tools]
    refine List.nodup_flatMap.mpr ⟨fun e he => entryQualifiedNames_nodup (hops e he), ?_⟩
    have hpw : servers.Pairwise (fun a b => a.1 ≠ b.1) := List.pairwise_map.mp hkeys
    refine hpw.imp_of_mem ?_
    intro a b ha hb hne x hx₁ hx₂
    obtain ⟨t₁, ht₁, rfl⟩ := mem_entryQualifiedNames hx₁
    obtain ⟨t₂, ht₂, heq⟩ := mem_entryQualifiedNames hx₂
    exact hne (qualified_name_inj (hflat _ ha) (hflat _ hb) heq).1

/-- C5 counterexample: provider "a" exposing operation "b_c" and provider
"a_b" exposing operation "c" both produce the qualified name "a_b_c" —
two adapters in the aggregate share a name, so prepending the provider
name does not make collisions impossible. -/
theorem qualified_name_collision :
    ((get_all_tools collidingServers 30).map (fun w => w.name)) = ["a_b_c", "a_b_c"]
    ∧ ¬ ((get_all_tools collidingServers 30).map (fun w => w.name)).Nodup := by
  refine ⟨rfl, ?_⟩
  simp only [show (get_all_tools collidingServers 30).map (fun w => w.name)
      = ["a_b_c", "a_b_c"] from rfl]
  decide

/-- C5 witness: the amended statement at the two-provider registry. -/
theorem get_all_tools_qualified_names_witness :
    (∃ entry op, entry ∈ twoProviderServers
      ∧ (wrap_mcp_tool "providerA" (.ok .none) 30 (opTool "query")).server_name = entry.1
      ∧ (wrap_mcp_tool "providerA" (.ok .none) 30 (opTool "query")).name
          = entry.1 ++ "_" ++ op)
    ∧ ((get_all_tools twoProviderServers 30).map (fun w => w.name)).Nodup :=
  ⟨get_all_tools_qualified_names.1 twoProviderServers 30
      (wrap_mcp_tool "providerA" (.ok .none) 30 (opTool "query"))
      (by simp only [show get_all_tools twoProviderServers 30
            = [wrap_mcp_tool "providerA" (.ok .none) 30 (opTool "query"),
               wrap_mcp_tool "providerB" (.ok .none) 30 (opTool "query")] from rfl]
          exact List.mem_cons_self _ _),
   get_all_tools_qualified_names.2.2.2 twoProviderServers 30 (by decide)
      (by
        intro entry he
        simp only [twoProviderServers, List.mem_cons, List.not_mem_nil, or_false] at he
        rcases he with rfl | rfl <;> decide)
      (by
        intro entry he
        simp only [twoProviderServers, List.mem_cons, List.not_mem_nil, or_false] at he
        rcases he with rfl | rfl <;> decide)⟩

/-- C6: `get_all_tools` never offers a disconnected provider's
operations — every adapter in the aggregate belongs to a registered entry
whose connectivity flag is true — and for provider A connected with 3
operations and provider B disconnected with 2, exactly 3 adapters come
back, all attributed to A. -/
theorem get_all_tools_skips_disconnected :
    (∀ (servers : List (String × MCPServerInfo)) (timeout_seconds : ℚ)
        (w : MCPToolWrapper),
      w ∈ get_all_tools servers timeout_seconds →
        ∃ entry, entry ∈ servers ∧ entry.2.is_connected = true
          ∧ w.server_name = entry.1)
    ∧ (get_all_tools mixedServers 30).length = 3
    ∧ (∀ w, w ∈ get_all_tools mixedServers 30 → w.server_name = "A") := by
  refine ⟨?_, rfl, ?_⟩
  · intro servers timeout_seconds w hw
    rcases mem_get_all_tools.mp hw with ⟨entry, hentry, hc, sess, hsess, t, ht, rfl⟩
    exact ⟨entry, hentry, hc, rfl⟩
  · intro w hw
    simp only [show get_all_tools mixedServers 30
        = [wrap_mcp_tool "A" (.ok .none) 30 (opTool "op1"),
           wrap_mcp_tool "A" (.ok .none) 30 (opTool "op2"),
           wrap_mcp_tool "A" (.ok .none) 30 (opTool "op3")] from rfl,
      List.mem_cons, List.not_mem_nil, or_false] at hw
    rcases hw with rfl | rfl | rfl <;> rfl

/-- C6 witness: the connectivity invariant at the mixed registry's first
adapter. -/
theorem get_all_tools_skips_disconnected_witness :
    ∃ entry, entry ∈ mixedServers ∧ entry.2.is_connected = true
      ∧ (wrap_mcp_tool "A" (.ok .none) 30 (opTool "op1")).server_name = entry.1 :=
  get_all_tools_skips_disconnected.1 mixedServers 30
    (wrap_mcp_tool "A" (.ok .none) 30 (opTool "op1"))
    (by simp only [show get_all_tools mixedServers 30
          = [wrap_mcp_tool "A" (.ok .none) 30 (opTool "op1"),
             wrap_mcp_tool "A" (.ok .none) 30 (opTool "op2"),
             wrap_mcp_tool "A" (.ok .none) 30 (opTool "op3")] from rfl]
        exact List.mem_cons_self _ _)

end MCPManager
